import Mathlib

/-!
Shallow embedding of `src/playwright_runner.py` (text2video-backend).

The module drives a headless browser: `run_web_generator` launches a browser,
navigates to `site_url`, dispatches to one of four site handlers
(`handle_lmarena`, `handle_huggingface`, `handle_replicate`,
`handle_generic_site`) by substring tests on the URL, and always closes the
browser in a `finally` block; a top-level `except` converts any escaped
exception into a `status: error` result.

Browser interactions are modelled by explicit environments: each fallible
`await` (wait_for_selector / fill / click / goto / ...) is a field that is
either `none` (the call succeeded) or `some msg` (the call raised an
exception whose `str` is `msg`).  DOM contents (the `src` attributes of the
`img` / `video` elements returned by `query_selector_all`) are lists of
`Option String` (`none` = attribute absent).  Python dictionaries are
modelled by the `Outcome` structure with `Option` fields for keys that some
return paths omit (`output`, `error`, `prompt`, `site`).
-/

namespace T2V

/-- Python substring start test: `startsAt pat s` is true when `pat` is an
initial segment of `s` (character lists). Mirrors `str.startswith`. -/
def startsAt : List Char → List Char → Bool
  | [], _ => true
  | _ :: _, [] => false
  | p :: ps, c :: cs => p == c && startsAt ps cs

/-- Python `pat in s` on character lists: `pat` occurs contiguously in `s`. -/
def hasSubList (pat : List Char) : List Char → Bool
  | [] => startsAt pat []
  | c :: cs => startsAt pat (c :: cs) || hasSubList pat cs

/-- Python `pat in s` for strings (contiguous substring containment). -/
def strContains (s pat : String) : Bool :=
  hasSubList pat.data s.data

/-- Python `s.startswith(pat)` for strings. -/
def strStarts (s pat : String) : Bool :=
  startsAt pat.data s.data

/-- Python truthiness of an optional string attribute: `if src:` is true
exactly when the attribute is present and non-empty. -/
def pyTruthy : Option String → Bool
  | none => false
  | some s => !(s == "")

/-- Python `l[-n:]`: the last `n` elements of `l` (all of `l` when shorter). -/
def takeLast (n : Nat) (l : List α) : List α :=
  l.drop (l.length - n)

/-- Result status strings used by the module: `"success"`, `"no_output"`,
`"failed"`, `"error"`. -/
inductive Status where
  | success
  | no_output
  | failed
  | error
deriving DecidableEq, Repr

/-- One entry of the `output` list: `{"type": ..., "url": ...}`.  The `type`
string is whatever the handler wrote (`"image"`/`"video"` in
`handle_lmarena`, the lowercase tag name elsewhere). -/
structure MediaRef where
  type : String
  url : String
deriving DecidableEq, Repr

/-- The result dictionary.  Keys that some return paths omit (or set to
`None`) are `Option`-valued: the handlers' failure dicts carry only
`status` and `error`, and the initial dict in `run_web_generator` has
`output = None`, `error = None`. -/
structure Outcome where
  status : Status
  prompt : Option String
  site : Option String
  output : Option (List MediaRef)
  error : Option String
deriving DecidableEq, Repr

/-- A DOM element returned by `query_selector_all`: its lowercase tag name
(via `el.tagName.toLowerCase()`) and its `src` attribute. -/
structure Elem where
  tag : String
  src : Option String
deriving DecidableEq, Repr

/-- The `try ... except: continue` loop over a candidate selector list:
returns the first selector on which the attempted action succeeds, `none`
when every candidate fails.  (`ok` abstracts whether the browser action on
a given selector succeeds within its timeout.) -/
def probe (ok : String → Bool) : List String → Option String
  | [] => none
  | c :: cs => if ok c then some c else probe ok cs

/-- Button selector list of `handle_lmarena`. -/
def lmarenaButtonSelectors : List String :=
  ["button:has-text(\"Generate\")", "button:has-text(\"Submit\")",
   "button:has-text(\"Create\")", "button[type=\"submit\"]"]

/-- Input selector list of `handle_generic_site`. -/
def genericInputSelectors : List String :=
  ["textarea", "input[type=\"text\"]", "[contenteditable=\"true\"]"]

/-- Button selector list of `handle_generic_site`. -/
def genericButtonSelectors : List String :=
  ["button:has-text(\"Generate\")", "button:has-text(\"Submit\")",
   "button:has-text(\"Create\")", "button:has-text(\"Run\")",
   "button[type=\"submit\"]", ".btn:has-text(\"Generate\")"]

/-- Environment of one `handle_lmarena` run: outcomes of its fallible
browser calls and the `src` attributes of the `img` / `video` elements
found at extraction time (in DOM order). -/
structure LmEnv where
  waitInputErr : Option String
  fillErr : Option String
  clickOk : String → Bool
  waitOutputErr : Option String
  imgs : List (Option String)
  vids : List (Option String)

/-- Per-image keep test of `handle_lmarena`: `if src and ('blob:' in src
or 'data:' in src or 'generated' in src)`. -/
def lmImgKeep (src : Option String) : Option MediaRef :=
  match src with
  | some s =>
      if !(s == "") && (strContains s "blob:" || strContains s "data:"
          || strContains s "generated") then
        some ⟨"image", s⟩
      else none
  | none => none

/-- Per-video keep test of `handle_lmarena`: `if src:`. -/
def lmVidKeep (src : Option String) : Option MediaRef :=
  match src with
  | some s => if !(s == "") then some ⟨"video", s⟩ else none
  | none => none

/-- Extraction step of `handle_lmarena`: take the last 3 images and last 2
videos, keep an image when its `src` is truthy and contains `blob:`,
`data:` or `generated`, keep a video when its `src` is truthy; images are
appended before videos. -/
def lmarenaCollect (imgs vids : List (Option String)) : List MediaRef :=
  (takeLast 3 imgs).filterMap lmImgKeep ++ (takeLast 2 vids).filterMap lmVidKeep

/-- `handle_lmarena(page, prompt, timeout)`.  The wait-for-input, fill and
wait-for-output calls raise into the handler's outer `except` (returning a
`failed` dict holding `str(e)`); the button loop swallows per-selector
failures and an exhausted loop returns the hardcoded failure dict. -/
def handle_lmarena (prompt : String) (env : LmEnv) : Outcome :=
  match env.waitInputErr with
  | some e => ⟨.failed, none, none, none, some e⟩
  | none =>
    match env.fillErr with
    | some e => ⟨.failed, none, none, none, some e⟩
    | none =>
      match probe env.clickOk lmarenaButtonSelectors with
      | none => ⟨.failed, none, none, none, some "Could not find generate button"⟩
      | some _ =>
        match env.waitOutputErr with
        | some e => ⟨.failed, none, none, none, some e⟩
        | none =>
          let output := lmarenaCollect env.imgs env.vids
          ⟨if output.isEmpty then .no_output else .success,
           some prompt, some "lmarena.ai", some output, none⟩

/-- Environment of one `handle_huggingface` run: its four fallible awaits
(wait for `.gradio-container`, fill, click, wait for output) and the
combined `img, video` element list at extraction time. -/
structure HfEnv where
  waitErr : Option String
  fillErr : Option String
  clickErr : Option String
  waitOutErr : Option String
  content : List Elem

/-- Per-element keep test of `handle_huggingface`: `if src:`, typed by
lowercase tag name. -/
def hfKeep (el : Elem) : Option MediaRef :=
  match el.src with
  | some s => if !(s == "") then some ⟨el.tag, s⟩ else none
  | none => none

/-- Extraction step of `handle_huggingface`: last 2 elements of the
combined list, kept when their `src` is truthy, typed by tag name. -/
def hfCollect (content : List Elem) : List MediaRef :=
  (takeLast 2 content).filterMap hfKeep

/-- `handle_huggingface(page, prompt, timeout)`. -/
def handle_huggingface (prompt : String) (env : HfEnv) : Outcome :=
  match env.waitErr with
  | some e => ⟨.failed, none, none, none, some e⟩
  | none =>
    match env.fillErr with
    | some e => ⟨.failed, none, none, none, some e⟩
    | none =>
      match env.clickErr with
      | some e => ⟨.failed, none, none, none, some e⟩
      | none =>
        match env.waitOutErr with
        | some e => ⟨.failed, none, none, none, some e⟩
        | none =>
          let output := hfCollect env.content
          ⟨if output.isEmpty then .no_output else .success,
           some prompt, some "huggingface.co", some output, none⟩

/-- Environment of one `handle_replicate` run. -/
structure RepEnv where
  waitErr : Option String
  fillErr : Option String
  clickErr : Option String
  waitOutErr : Option String
  content : List Elem

/-- Per-element keep test of `handle_replicate`: `if src and 'replicate'
in src`, typed by lowercase tag name. -/
def repKeep (el : Elem) : Option MediaRef :=
  match el.src with
  | some s =>
      if !(s == "") && strContains s "replicate" then some ⟨el.tag, s⟩
      else none
  | none => none

/-- Extraction step of `handle_replicate`: every element of the combined
list whose `src` is truthy and contains `replicate`; no truncation. -/
def repCollect (content : List Elem) : List MediaRef :=
  content.filterMap repKeep

/-- `handle_replicate(page, prompt, timeout)`. -/
def handle_replicate (prompt : String) (env : RepEnv) : Outcome :=
  match env.waitErr with
  | some e => ⟨.failed, none, none, none, some e⟩
  | none =>
    match env.fillErr with
    | some e => ⟨.failed, none, none, none, some e⟩
    | none =>
      match env.clickErr with
      | some e => ⟨.failed, none, none, none, some e⟩
      | none =>
        match env.waitOutErr with
        | some e => ⟨.failed, none, none, none, some e⟩
        | none =>
          let output := repCollect env.content
          ⟨if output.isEmpty then .no_output else .success,
           some prompt, some "replicate.com", some output, none⟩

/-- Environment of one `handle_generic_site` run: whether the
wait-and-fill attempt succeeds per input selector, whether the click
succeeds per button selector, and the combined `img, video` element list
at extraction time. -/
structure GenEnv where
  inputOk : String → Bool
  clickOk : String → Bool
  content : List Elem

/-- Per-element keep test of `handle_generic_site`: `if src and not
src.startswith('data:image/svg')`, typed by lowercase tag name. -/
def genKeep (el : Elem) : Option MediaRef :=
  match el.src with
  | some s =>
      if !(s == "") && !(strStarts s "data:image/svg") then some ⟨el.tag, s⟩
      else none
  | none => none

/-- Extraction filter of `handle_generic_site`: keep every element whose
`src` is truthy and does not start with `data:image/svg`, typed by tag
name; no truncation at this stage. -/
def genCollect (content : List Elem) : List MediaRef :=
  content.filterMap genKeep

/-- `handle_generic_site(page, prompt, timeout)`: probe the input
selectors (failure → `"No input field found"`), probe the button
selectors (failure → `"No submit button found"`), then extract; the
returned `output` is `output[-3:]` of the filtered list when non-empty. -/
def handle_generic_site (prompt : String) (env : GenEnv) : Outcome :=
  match probe env.inputOk genericInputSelectors with
  | none => ⟨.failed, none, none, none, some "No input field found"⟩
  | some _ =>
    match probe env.clickOk genericButtonSelectors with
    | none => ⟨.failed, none, none, none, some "No submit button found"⟩
    | some _ =>
      let output := genCollect env.content
      ⟨if output.isEmpty then .no_output else .success,
       some prompt, some "generic",
       some (if output.isEmpty then [] else takeLast 3 output), none⟩

/-- The four handler branches of the `if/elif` dispatch in
`run_web_generator`. -/
inductive Strat where
  | lmarena
  | huggingface
  | replicate
  | generic
deriving DecidableEq, Repr

/-- Strategy dispatch of `run_web_generator`: substring tests in source
order, `"lmarena.ai" in site_url` first, then `"huggingface.co"`, then
`"replicate.com"`, else the generic handler. -/
def selectStrategy (site_url : String) : Strat :=
  if strContains site_url "lmarena.ai" then .lmarena
  else if strContains site_url "huggingface.co" then .huggingface
  else if strContains site_url "replicate.com" then .replicate
  else .generic

/-- Browser lifecycle events of one session: `launch` when
`p.chromium.launch` returns, `close` when `browser.close()` runs. -/
inductive BEvent where
  | launch
  | close
deriving DecidableEq, Repr

/-- Number of browser instances still open after a trace. -/
def openAfter (tr : List BEvent) : Int :=
  (tr.count .launch : Int) - (tr.count .close : Int)

/-- Environment of the session code around the handler call: each fallible
await before the dispatch (`async_playwright` start, `chromium.launch`,
`new_page`, `set_viewport_size`, `set_extra_http_headers`, `goto`,
`wait_for_load_state`) is `none` on success or `some msg` when it raises,
and `closeErr` is the teardown fault — the first exception raised by the
`finally` block's `browser.close()` or by the `async_playwright` context
exit, both of which run after every path on which the launch succeeded.
(When the launch itself fails there is no browser to tear down; the
context exit on that path is modelled as infallible.) -/
structure SessionEnv where
  startErr : Option String
  launchErr : Option String
  newPageErr : Option String
  viewportErr : Option String
  headersErr : Option String
  gotoErr : Option String
  loadErr : Option String
  closeErr : Option String

/-- First raised exception among the page-setup awaits that run after the
browser is launched, in source order. -/
def SessionEnv.pageFault (senv : SessionEnv) : Option String :=
  senv.newPageErr <|> senv.viewportErr <|> senv.headersErr <|>
    senv.gotoErr <|> senv.loadErr

/-- The initial result dict of `run_web_generator`:
`{"status": "failed", "prompt": prompt, "site": site_url, "output": None,
"error": None}`. -/
def initResult (prompt site_url : String) : Outcome :=
  ⟨.failed, some prompt, some site_url, none, none⟩

/-- Effect of the top-level `except Exception as e` block on the current
result dict: `result["error"] = str(e); result["status"] = "error"`. -/
def toErrorResult (r : Outcome) (e : String) : Outcome :=
  { r with status := .error, error := some e }

/-- Skeleton of `run_web_generator` with the dispatched handler abstracted
as `handler : Except String Outcome` (`.error e` = the handler call raised
`e`; the session code guards it like any other await).  Returns the result
dict together with the browser lifecycle trace: the browser is launched
once when `chromium.launch` succeeds, and on every path that launched it
the `finally` block's close call and the context exit run — normal
return, page-setup exception, and handler exception alike — so the trace
records `.close` (the context exit terminates the browser process even
when the `close()` RPC itself raised).  Per Python semantics, an exception
raised inside the `finally` (`closeErr`) replaces any exception already
propagating; the trailing `except` then turns the surviving exception
into a `status: error` result stamped onto whatever dict `result`
currently held — the initial dict before the handler assigned, the
handler's dict afterwards. -/
def runSessionWith (prompt site_url : String) (senv : SessionEnv)
    (handler : Except String Outcome) : Outcome × List BEvent :=
  let init := initResult prompt site_url
  match senv.startErr with
  | some e => (toErrorResult init e, [])
  | none =>
    match senv.launchErr with
    | some e => (toErrorResult init e, [])
    | none =>
      match senv.pageFault with
      | some e =>
          match senv.closeErr with
          | some e2 => (toErrorResult init e2, [.launch, .close])
          | none => (toErrorResult init e, [.launch, .close])
      | none =>
        match handler with
        | .error e =>
            match senv.closeErr with
            | some e2 => (toErrorResult init e2, [.launch, .close])
            | none => (toErrorResult init e, [.launch, .close])
        | .ok r =>
            match senv.closeErr with
            | some e2 => (toErrorResult r e2, [.launch, .close])
            | none => (r, [.launch, .close])

/-- Environment of a full `run_web_generator` call: the session's own
fallible awaits plus the page environment each handler would see. -/
structure FullEnv extends SessionEnv where
  lm : LmEnv
  hf : HfEnv
  rep : RepEnv
  gen : GenEnv

/-- The handler actually dispatched by the `if/elif` chain, run on its page
environment.  Every handler wraps its whole body in `try/except
Exception`, so the dispatched call returns normally (`Except.ok`). -/
def dispatchRun (prompt site_url : String) (fenv : FullEnv) : Outcome :=
  match selectStrategy site_url with
  | .lmarena => handle_lmarena prompt fenv.lm
  | .huggingface => handle_huggingface prompt fenv.hf
  | .replicate => handle_replicate prompt fenv.rep
  | .generic => handle_generic_site prompt fenv.gen

/-- `run_web_generator(prompt, site_url, timeout)`: the session skeleton
instantiated with the dispatched concrete handler. -/
def run_web_generator (prompt site_url : String) (fenv : FullEnv) :
    Outcome × List BEvent :=
  runSessionWith prompt site_url fenv.toSessionEnv
    (.ok (dispatchRun prompt site_url fenv))

/-- The known address patterns and their handlers, as listed by the
dispatch chain. -/
def knownPatterns : List (String × Strat) :=
  [("lmarena.ai", .lmarena), ("huggingface.co", .huggingface),
   ("replicate.com", .replicate)]

/-- Modelled from the spec's words for comparison (claim C3): "longest/
most-specific address match wins; default otherwise" — among the known
patterns occurring in the address, pick one of maximal pattern length,
else generic. -/
def specLongestSelect (site_url : String) : Strat :=
  let hits := knownPatterns.filter (fun pr => strContains site_url pr.1)
  match hits.foldl
      (fun acc pr =>
        match acc with
        | none => some pr
        | some best => if pr.1.length > best.1.length then some pr else some best)
      none with
  | some pr => pr.2
  | none => .generic

/-! Helper lemmas about `takeLast` (Python's `l[-n:]`). -/

theorem takeLast_length_le (n : Nat) (l : List α) : (takeLast n l).length ≤ n := by
  simp [takeLast]
  omega

theorem takeLast_of_length_le {n : Nat} {l : List α} (h : l.length ≤ n) :
    takeLast n l = l := by
  simp [takeLast, Nat.sub_eq_zero_of_le h]

theorem takeLast_takeLast (n : Nat) (l : List α) :
    takeLast n (takeLast n l) = takeLast n l :=
  takeLast_of_length_le (takeLast_length_le n l)

theorem takeLast_ne_nil {n : Nat} (hn : 0 < n) {l : List α} (h : l ≠ []) :
    takeLast n l ≠ [] := by
  have h1 : 0 < l.length := List.length_pos.mpr h
  have h2 : (takeLast n l).length = l.length - (l.length - n) := by
    simp [takeLast]
  rw [← List.length_pos, h2]
  omega

/-- C7: the selector probe tries candidates strictly in list order: a
resolving first candidate wins whatever the later candidates would do, and
when no candidate resolves the probe returns `none` (a value, not an
exception). -/
theorem probe_order_and_notfound :
    (∀ (ok : String → Bool) (c : String) (cs : List String),
        ok c = true → probe ok (c :: cs) = some c) ∧
    (∀ (ok : String → Bool) (l : List String),
        (∀ c ∈ l, ok c = false) → probe ok l = none) := by
  constructor
  · intro ok c cs h
    simp [probe, h]
  · intro ok l h
    induction l with
    | nil => rfl
    | cons c cs ih =>
        simp [probe, h c (by simp)]
        exact ih fun x hx => h x (by simp [hx])

/-- Witness for C7: on the generic input-selector list, a probe whose
first candidate resolves returns that candidate; a probe where nothing
resolves returns `none`. -/
theorem probe_order_and_notfound_witness :
    probe (fun s => s == "textarea") genericInputSelectors = some "textarea" ∧
    probe (fun _ => false) genericInputSelectors = none :=
  ⟨probe_order_and_notfound.1 (fun s => s == "textarea") "textarea"
      ["input[type=\"text\"]", "[contenteditable=\"true\"]"] (by decide),
   probe_order_and_notfound.2 (fun _ => false) genericInputSelectors
      (by intro c _; rfl)⟩

/-- Counterexample for C3: on an address containing both `lmarena.ai` and
the strictly longer pattern `huggingface.co`, the code selects the lmarena
handler (first test in the `if/elif` chain), while longest-match selection
would pick huggingface — so the longest/most-specific pattern does not
win. -/
theorem selectStrategy_not_longest_match :
    strContains "https://lmarena.ai?via=huggingface.co" "lmarena.ai" = true ∧
    strContains "https://lmarena.ai?via=huggingface.co" "huggingface.co" = true ∧
    "lmarena.ai".length < "huggingface.co".length ∧
    specLongestSelect "https://lmarena.ai?via=huggingface.co" = .huggingface ∧
    selectStrategy "https://lmarena.ai?via=huggingface.co" = .lmarena :=
  ⟨by decide, by decide, by decide, by decide, by decide⟩

/-- C3 (amended): exactly one strategy is selected per address; the
address patterns are tested for substring containment in fixed source
order (`lmarena.ai`, then `huggingface.co`, then `replicate.com`) and the
first match wins — not the longest one — and every address matching no
pattern falls back to the generic strategy. -/
theorem selectStrategy_first_match_wins :
    ∀ u : String,
      (strContains u "lmarena.ai" = true → selectStrategy u = .lmarena) ∧
      (strContains u "lmarena.ai" = false → strContains u "huggingface.co" = true →
        selectStrategy u = .huggingface) ∧
      (strContains u "lmarena.ai" = false → strContains u "huggingface.co" = false →
        strContains u "replicate.com" = true → selectStrategy u = .replicate) ∧
      (strContains u "lmarena.ai" = false → strContains u "huggingface.co" = false →
        strContains u "replicate.com" = false → selectStrategy u = .generic) := by
  intro u
  refine ⟨?_, ?_, ?_, ?_⟩ <;> intros <;> simp_all [selectStrategy]

/-- Witness for C3 (amended): a matching address selects its handler, an
unknown address selects the generic handler. -/
theorem selectStrategy_first_match_wins_witness :
    selectStrategy "https://lmarena.ai" = .lmarena ∧
    selectStrategy "https://example.org/studio" = .generic :=
  ⟨(selectStrategy_first_match_wins "https://lmarena.ai").1 (by decide),
   (selectStrategy_first_match_wins "https://example.org/studio").2.2.2
      (by decide) (by decide) (by decide)⟩

/-- C1: `run_web_generator` always produces exactly one structured result
(it is a total function of its environment): a handler that raises
mid-execution is caught at the session boundary and reported as
`status: error` carrying the exception's description, every fault raised
before the handler (playwright start, browser launch, page setup,
navigation) is likewise caught and classified as `error`, and the browser
lifecycle trace is balanced — zero browsers remain open — on every
terminal path, with an arbitrary (possibly raising) handler and with the
dispatched concrete handlers. -/
theorem session_catch_all_and_release :
    (∀ (p u : String) (senv : SessionEnv) (h : Except String Outcome),
        openAfter (runSessionWith p u senv h).2 = 0) ∧
    (∀ (p u : String) (senv : SessionEnv) (e : String),
        senv.startErr = none → senv.launchErr = none → senv.pageFault = none →
        (runSessionWith p u senv (.error e)).1 =
          toErrorResult (initResult p u) (senv.closeErr.getD e)) ∧
    (∀ (p u : String) (senv : SessionEnv) (h : Except String Outcome) (e : String),
        senv.startErr = some e ∨ (senv.startErr = none ∧ senv.launchErr = some e) →
        (runSessionWith p u senv h).1 = toErrorResult (initResult p u) e) ∧
    (∀ (p u : String) (senv : SessionEnv) (h : Except String Outcome) (e : String),
        senv.startErr = none → senv.launchErr = none → senv.pageFault = some e →
        (runSessionWith p u senv h).1 =
          toErrorResult (initResult p u) (senv.closeErr.getD e)) ∧
    (∀ (p u : String) (senv : SessionEnv) (r : Outcome) (e : String),
        senv.startErr = none → senv.launchErr = none → senv.pageFault = none →
        senv.closeErr = some e →
        (runSessionWith p u senv (.ok r)).1 = toErrorResult r e) ∧
    (∀ (p u : String) (fenv : FullEnv),
        openAfter (run_web_generator p u fenv).2 = 0) := by
  refine ⟨?_, ?_, ?_, ?_, ?_, ?_⟩
  · intro p u senv h
    cases h1 : senv.startErr <;> cases h2 : senv.launchErr <;>
      cases h3 : senv.pageFault <;> cases h4 : senv.closeErr <;> cases h <;>
      simp only [runSessionWith, h1, h2, h3, h4] <;> decide
  · intro p u senv e h1 h2 h3
    cases h4 : senv.closeErr <;> simp [runSessionWith, h1, h2, h3, h4]
  · intro p u senv h e hd
    rcases hd with h1 | ⟨h1, h2⟩
    · cases h2 : senv.launchErr <;> cases h3 : senv.pageFault <;>
        simp [runSessionWith, h1, h2, h3]
    · cases h3 : senv.pageFault <;> simp [runSessionWith, h1, h2, h3]
  · intro p u senv h e h1 h2 h3
    cases h4 : senv.closeErr <;> cases h <;>
      simp [runSessionWith, h1, h2, h3, h4]
  · intro p u senv r e h1 h2 h3 h4
    simp [runSessionWith, h1, h2, h3, h4]
  · intro p u fenv
    cases h1 : fenv.toSessionEnv.startErr <;>
      cases h2 : fenv.toSessionEnv.launchErr <;>
      cases h3 : fenv.toSessionEnv.pageFault <;>
      cases h4 : fenv.toSessionEnv.closeErr <;>
      simp only [run_web_generator, runSessionWith, h1, h2, h3, h4] <;> decide

/-- Witness for C1: with a clean teardown, a handler raising `"boom"`
yields the initial dict reclassified as `status: error` with detail
`"boom"` and a balanced browser trace; a navigation fault is likewise
classified; and when the teardown itself raises after the handler
returned a dict, the session still returns one structured `error`
outcome. -/
theorem session_catch_all_and_release_witness :
    (runSessionWith "p" "https://x.test"
        ⟨none, none, none, none, none, none, none, none⟩ (.error "boom")).1 =
      toErrorResult (initResult "p" "https://x.test") "boom" ∧
    openAfter (runSessionWith "p" "https://x.test"
        ⟨none, none, none, none, none, none, none, none⟩ (.error "boom")).2 = 0 ∧
    (runSessionWith "p" "https://x.test"
        ⟨none, none, none, none, none, some "net::ERR_NAME_NOT_RESOLVED", none, none⟩
        (.ok (initResult "p" "https://x.test"))).1 =
      toErrorResult (initResult "p" "https://x.test") "net::ERR_NAME_NOT_RESOLVED" ∧
    (runSessionWith "p" "https://x.test"
        ⟨none, none, none, none, none, none, none, some "Target closed"⟩
        (.ok ⟨.success, some "p", some "lmarena.ai", some [⟨"image", "blob:abc"⟩], none⟩)).1 =
      toErrorResult ⟨.success, some "p", some "lmarena.ai", some [⟨"image", "blob:abc"⟩], none⟩
        "Target closed" :=
  ⟨session_catch_all_and_release.2.1 "p" "https://x.test"
      ⟨none, none, none, none, none, none, none, none⟩ "boom" rfl rfl rfl,
   session_catch_all_and_release.1 "p" "https://x.test"
      ⟨none, none, none, none, none, none, none, none⟩ (.error "boom"),
   session_catch_all_and_release.2.2.2.1 "p" "https://x.test"
      ⟨none, none, none, none, none, some "net::ERR_NAME_NOT_RESOLVED", none, none⟩
      (.ok (initResult "p" "https://x.test")) "net::ERR_NAME_NOT_RESOLVED" rfl rfl rfl,
   session_catch_all_and_release.2.2.2.2.1 "p" "https://x.test"
      ⟨none, none, none, none, none, none, none, some "Target closed"⟩
      ⟨.success, some "p", some "lmarena.ai", some [⟨"image", "blob:abc"⟩], none⟩
      "Target closed" rfl rfl rfl rfl⟩

/-- The result-dict invariant claimed by the spec: `output` is present and
non-empty exactly on `success`, and `error` is present exactly on `failed`
and `error`. -/
def outcomeInvariant (o : Outcome) : Prop :=
  ((o.status = .success) ↔ ∃ l, o.output = some l ∧ l ≠ []) ∧
  ((o.status = .failed ∨ o.status = .error) ↔ o.error.isSome = true)

theorem handle_lmarena_invariant (p : String) (env : LmEnv) :
    outcomeInvariant (handle_lmarena p env) := by
  unfold handle_lmarena
  cases h1 : env.waitInputErr with
  | some e => simp [outcomeInvariant]
  | none =>
  cases h2 : env.fillErr with
  | some e => simp [outcomeInvariant]
  | none =>
  cases h3 : probe env.clickOk lmarenaButtonSelectors with
  | none => simp [outcomeInvariant]
  | some c =>
  cases h4 : env.waitOutputErr with
  | some e => simp [outcomeInvariant]
  | none =>
  by_cases h5 : (lmarenaCollect env.imgs env.vids).isEmpty
  · simp [outcomeInvariant, h5, List.isEmpty_iff.mp h5]
  · simp only [List.isEmpty_iff] at h5
    simp [outcomeInvariant, List.isEmpty_iff, h5]

theorem handle_huggingface_invariant (p : String) (env : HfEnv) :
    outcomeInvariant (handle_huggingface p env) := by
  unfold handle_huggingface
  cases h1 : env.waitErr with
  | some e => simp [outcomeInvariant]
  | none =>
  cases h2 : env.fillErr with
  | some e => simp [outcomeInvariant]
  | none =>
  cases h3 : env.clickErr with
  | some e => simp [outcomeInvariant]
  | none =>
  cases h4 : env.waitOutErr with
  | some e => simp [outcomeInvariant]
  | none =>
  by_cases h5 : (hfCollect env.content).isEmpty
  · simp [outcomeInvariant, h5, List.isEmpty_iff.mp h5]
  · simp only [List.isEmpty_iff] at h5
    simp [outcomeInvariant, List.isEmpty_iff, h5]

theorem handle_replicate_invariant (p : String) (env : RepEnv) :
    outcomeInvariant (handle_replicate p env) := by
  unfold handle_replicate
  cases h1 : env.waitErr with
  | some e => simp [outcomeInvariant]
  | none =>
  cases h2 : env.fillErr with
  | some e => simp [outcomeInvariant]
  | none =>
  cases h3 : env.clickErr with
  | some e => simp [outcomeInvariant]
  | none =>
  cases h4 : env.waitOutErr with
  | some e => simp [outcomeInvariant]
  | none =>
  by_cases h5 : (repCollect env.content).isEmpty
  · simp [outcomeInvariant, h5, List.isEmpty_iff.mp h5]
  · simp only [List.isEmpty_iff] at h5
    simp [outcomeInvariant, List.isEmpty_iff, h5]

theorem handle_generic_site_invariant (p : String) (env : GenEnv) :
    outcomeInvariant (handle_generic_site p env) := by
  unfold handle_generic_site
  cases h1 : probe env.inputOk genericInputSelectors with
  | none => simp [outcomeInvariant]
  | some c =>
  cases h2 : probe env.clickOk genericButtonSelectors with
  | none => simp [outcomeInvariant]
  | some c2 =>
  by_cases h5 : (genCollect env.content).isEmpty
  · simp [outcomeInvariant, h5, List.isEmpty_iff.mp h5]
  · simp only [List.isEmpty_iff] at h5
    simp [outcomeInvariant, List.isEmpty_iff, h5]
    exact takeLast_ne_nil (by omega) h5

/-- A full-run environment in which every browser interaction succeeds,
the lmarena handler produces one generated image, and then the teardown
(`browser.close()` / context exit) raises. -/
def teardownFailEnv : FullEnv :=
  { startErr := none, launchErr := none, newPageErr := none, viewportErr := none,
    headersErr := none, gotoErr := none, loadErr := none,
    closeErr := some "Target page, context or browser has been closed",
    lm := ⟨none, none, fun _ => true, none, [some "blob:abc"], []⟩,
    hf := ⟨none, none, none, none, []⟩,
    rep := ⟨none, none, none, none, []⟩,
    gen := ⟨fun _ => false, fun _ => false, []⟩ }

/-- Counterexample for C2: on the return path of `run_web_generator` where
the handler returned a success dict and the teardown then raised, the
`except` block stamps `status: error` onto the handler's dict, which keeps
its non-empty `output` — so `output` is non-empty while `status` is not
`success`, violating the claimed iff. -/
theorem outcome_invariant_violated_on_teardown :
    (run_web_generator "p" "https://lmarena.ai" teardownFailEnv).1.status = .error ∧
    (run_web_generator "p" "https://lmarena.ai" teardownFailEnv).1.output =
      some [⟨"image", "blob:abc"⟩] ∧
    ¬ outcomeInvariant (run_web_generator "p" "https://lmarena.ai" teardownFailEnv).1 := by
  refine ⟨by decide, by decide, fun hinv => ?_⟩
  have hs := hinv.1.mpr ⟨[⟨"image", "blob:abc"⟩], by decide, by decide⟩
  exact absurd hs (by decide)

/-- C2 (amended): on every return path of each of the four site handlers,
and on every return path of `run_web_generator` on which the teardown does
not raise, the result dict satisfies: `output` is a present, non-empty
list exactly when `status` is `success`, and `error` is set exactly when
`status` is `failed` or `error`.  When the teardown raises after a handler
returned a success dict, the returned outcome has `status: error` with
`error` set but keeps the handler's non-empty `output`; the second half of
the invariant — `error` set iff `status` is `failed` or `error` — holds on
every return path of `run_web_generator` unconditionally. -/
theorem outcome_invariant_paths :
    (∀ (p : String) (env : LmEnv), outcomeInvariant (handle_lmarena p env)) ∧
    (∀ (p : String) (env : HfEnv), outcomeInvariant (handle_huggingface p env)) ∧
    (∀ (p : String) (env : RepEnv), outcomeInvariant (handle_replicate p env)) ∧
    (∀ (p : String) (env : GenEnv), outcomeInvariant (handle_generic_site p env)) ∧
    (∀ (p u : String) (fenv : FullEnv), fenv.toSessionEnv.closeErr = none →
        outcomeInvariant (run_web_generator p u fenv).1) ∧
    (∀ (p u : String) (fenv : FullEnv),
        (((run_web_generator p u fenv).1.status = .failed ∨
          (run_web_generator p u fenv).1.status = .error) ↔
          ((run_web_generator p u fenv).1.error).isSome = true)) := by
  have hdisp : ∀ (p u : String) (fenv : FullEnv),
      outcomeInvariant (dispatchRun p u fenv) := by
    intro p u fenv
    unfold dispatchRun
    cases selectStrategy u with
    | lmarena => exact handle_lmarena_invariant p fenv.lm
    | huggingface => exact handle_huggingface_invariant p fenv.hf
    | replicate => exact handle_replicate_invariant p fenv.rep
    | generic => exact handle_generic_site_invariant p fenv.gen
  refine ⟨handle_lmarena_invariant, handle_huggingface_invariant,
    handle_replicate_invariant, handle_generic_site_invariant, ?_, ?_⟩
  · intro p u fenv h4
    cases h1 : fenv.toSessionEnv.startErr with
    | some e => simp [run_web_generator, runSessionWith, h1, outcomeInvariant,
        toErrorResult, initResult]
    | none =>
    cases h2 : fenv.toSessionEnv.launchErr with
    | some e => simp [run_web_generator, runSessionWith, h1, h2, outcomeInvariant,
        toErrorResult, initResult]
    | none =>
    cases h3 : fenv.toSessionEnv.pageFault with
    | some e => simp [run_web_generator, runSessionWith, h1, h2, h3, h4,
        outcomeInvariant, toErrorResult, initResult]
    | none =>
      simpa [run_web_generator, runSessionWith, h1, h2, h3, h4] using hdisp p u fenv
  · intro p u fenv
    cases h1 : fenv.toSessionEnv.startErr with
    | some e => simp [run_web_generator, runSessionWith, h1, toErrorResult, initResult]
    | none =>
    cases h2 : fenv.toSessionEnv.launchErr with
    | some e => simp [run_web_generator, runSessionWith, h1, h2, toErrorResult, initResult]
    | none =>
    cases h3 : fenv.toSessionEnv.pageFault with
    | some e =>
        cases h4 : fenv.toSessionEnv.closeErr <;>
          simp [run_web_generator, runSessionWith, h1, h2, h3, h4,
            toErrorResult, initResult]
    | none =>
      cases h4 : fenv.toSessionEnv.closeErr with
      | some e => simp [run_web_generator, runSessionWith, h1, h2, h3, h4,
          toErrorResult]
      | none =>
          simpa [run_web_generator, runSessionWith, h1, h2, h3, h4] using
            (hdisp p u fenv).2

/-- Witness for C2 (amended): on a concrete clean-teardown run that
succeeds with one generated image, the full invariant holds. -/
theorem outcome_invariant_paths_witness :
    outcomeInvariant
      (run_web_generator "p" "https://lmarena.ai"
        { teardownFailEnv with closeErr := none }).1 :=
  outcome_invariant_paths.2.2.2.2.1 "p" "https://lmarena.ai"
    { teardownFailEnv with closeErr := none } rfl

/-- A DOM snapshot with 4 images and 1 video, all passing the generic
strategy's filter. -/
def fourImgsOneVid : List Elem :=
  [⟨"img", some "https://cdn.test/a.png"⟩, ⟨"img", some "https://cdn.test/b.png"⟩,
   ⟨"img", some "https://cdn.test/c.png"⟩, ⟨"img", some "https://cdn.test/d.png"⟩,
   ⟨"video", some "https://cdn.test/v.mp4"⟩]

/-- The generic handler's returned output never exceeds 3 items
(`output[-3:]`). -/
theorem genericOutput_length_le_three (p : String) (env : GenEnv) :
    ((handle_generic_site p env).output.getD []).length ≤ 3 := by
  unfold handle_generic_site
  cases h1 : probe env.inputOk genericInputSelectors with
  | none => simp
  | some c =>
  cases h2 : probe env.clickOk genericButtonSelectors with
  | none => simp
  | some c2 =>
    by_cases h5 : (genCollect env.content).isEmpty
    · simp [h5]
    · simpa [h5] using takeLast_length_le 3 (genCollect env.content)

/-- Counterexample for C4: in the generic strategy, 4 images and 1 video
all pass the filter (the filtered list has 5 entries), yet the returned
output is the last 3 elements of the *combined* list — 2 images and the
video, 3 items — not the claimed last-3-images-plus-video, 4 items. -/
theorem generic_extraction_not_per_kind :
    (genCollect fourImgsOneVid).length = 5 ∧
    (handle_generic_site "p" ⟨fun _ => true, fun _ => true, fourImgsOneVid⟩).output =
      some [⟨"img", "https://cdn.test/c.png"⟩, ⟨"img", "https://cdn.test/d.png"⟩,
            ⟨"video", "https://cdn.test/v.mp4"⟩] ∧
    ((handle_generic_site "p" ⟨fun _ => true, fun _ => true, fourImgsOneVid⟩).output.getD
        []).length = 3 :=
  ⟨by decide, by decide, by decide⟩

/-- C4 (amended): extraction is per-strategy, not shared.  The lmarena
strategy truncates *before* filtering — it keeps the last 3 image and last
2 video elements of the DOM and then applies its filters, so earlier
elements never influence the result; the huggingface strategy likewise
depends only on the last 2 elements of its combined list; the generic
strategy filters and then keeps the last 3 elements of the combined
image+video list (its output never exceeds 3 items); and the replicate
strategy applies only its filter, keeping every element that passes it,
with no truncation. -/
theorem extraction_policy_per_strategy :
    (∀ imgs vids, lmarenaCollect imgs vids =
        lmarenaCollect (takeLast 3 imgs) (takeLast 2 vids)) ∧
    (∀ content, hfCollect content = hfCollect (takeLast 2 content)) ∧
    (∀ (p : String) (env : GenEnv),
        ((handle_generic_site p env).output.getD []).length ≤ 3) ∧
    (∀ (content : List Elem) (el : Elem) (r : MediaRef),
        el ∈ content → repKeep el = some r → r ∈ repCollect content) := by
  refine ⟨?_, ?_, genericOutput_length_le_three, ?_⟩
  · intro imgs vids
    simp [lmarenaCollect, takeLast_takeLast]
  · intro content
    simp [hfCollect, takeLast_takeLast]
  · intro content el r hmem hkeep
    exact List.mem_filterMap.mpr ⟨el, hmem, hkeep⟩

/-- Witness for C4 (amended): the replicate strategy keeps an element
whose `src` contains `replicate` even when it is followed by five other
kept elements (no truncation to the last few). -/
theorem extraction_policy_per_strategy_witness :
    (⟨"img", "https://replicate.delivery/x0.png"⟩ : MediaRef) ∈
      repCollect (⟨"img", some "https://replicate.delivery/x0.png"⟩ ::
        List.replicate 5 ⟨"img", some "https://replicate.delivery/y.png"⟩) ∧
    ((handle_generic_site "p" ⟨fun _ => true, fun _ => true, fourImgsOneVid⟩).output.getD
        []).length ≤ 3 :=
  ⟨extraction_policy_per_strategy.2.2.2 _
      ⟨"img", some "https://replicate.delivery/x0.png"⟩ _ (by decide) (by decide),
   extraction_policy_per_strategy.2.2.1 "p" ⟨fun _ => true, fun _ => true, fourImgsOneVid⟩⟩

/-- Counterexample for C5: no deduplication happens — three occurrences of
the same locator `blob:x` all appear in the lmarena output — and there is
no shared 5-item cap: the replicate strategy returns 6 items for 6
qualifying elements. -/
theorem no_dedup_and_no_shared_cap :
    lmarenaCollect [some "blob:x", some "blob:x", some "blob:x"] [] =
      [⟨"image", "blob:x"⟩, ⟨"image", "blob:x"⟩, ⟨"image", "blob:x"⟩] ∧
    (repCollect (List.replicate 6 ⟨"img", some "https://replicate.delivery/a.png"⟩)).length
      = 6 :=
  ⟨by decide, by decide⟩

/-- C5 (amended): the code performs no deduplication of locators (each
occurrence that passes a filter is emitted, in discovery order); the only
length bounds are the per-strategy truncations — at most 5 items
(3 images + 2 videos) from the lmarena handler, at most 3 from the
generic handler, at most 2 from the huggingface handler, while the
replicate handler's output is unbounded (it can reach any length). -/
theorem extraction_caps_per_strategy :
    (∀ (p : String) (env : LmEnv),
        ((handle_lmarena p env).output.getD []).length ≤ 5) ∧
    (∀ (p : String) (env : GenEnv),
        ((handle_generic_site p env).output.getD []).length ≤ 3) ∧
    (∀ (p : String) (env : HfEnv),
        ((handle_huggingface p env).output.getD []).length ≤ 2) ∧
    (∀ n : Nat, ∃ content : List Elem, (repCollect content).length = n) := by
  refine ⟨?_, genericOutput_length_le_three, ?_, ?_⟩
  · intro p env
    unfold handle_lmarena
    cases h1 : env.waitInputErr with
    | some e => simp
    | none =>
    cases h2 : env.fillErr with
    | some e => simp
    | none =>
    cases h3 : probe env.clickOk lmarenaButtonSelectors with
    | none => simp
    | some c =>
    cases h4 : env.waitOutputErr with
    | some e => simp
    | none =>
      have hi : ((takeLast 3 env.imgs).filterMap lmImgKeep).length ≤ 3 :=
        le_trans (List.length_filterMap_le _ _) (takeLast_length_le 3 env.imgs)
      have hv : ((takeLast 2 env.vids).filterMap lmVidKeep).length ≤ 2 :=
        le_trans (List.length_filterMap_le _ _) (takeLast_length_le 2 env.vids)
      simp only [lmarenaCollect]
      simp [List.length_append]
      omega
  · intro p env
    unfold handle_huggingface
    cases h1 : env.waitErr with
    | some e => simp
    | none =>
    cases h2 : env.fillErr with
    | some e => simp
    | none =>
    cases h3 : env.clickErr with
    | some e => simp
    | none =>
    cases h4 : env.waitOutErr with
    | some e => simp
    | none =>
      simpa [hfCollect] using
        le_trans (List.length_filterMap_le hfKeep (takeLast 2 env.content))
          (takeLast_length_le 2 env.content)
  · intro n
    refine ⟨List.replicate n ⟨"img", some "replicate"⟩, ?_⟩
    induction n with
    | zero => rfl
    | succ k ih =>
        simp only [List.replicate_succ, repCollect, List.filterMap_cons] at ih ⊢
        simp only [show repKeep ⟨"img", some "replicate"⟩ =
          some ⟨"img", "replicate"⟩ from rfl]
        simp only [List.length_cons]
        omega

/-- C6: when a strategy reaches extraction (all earlier states completed)
and the filtered set of kept media elements is empty, the outcome is
exactly `status: no_output` with an empty (but present) output list and no
error detail — for both the lmarena and the generic handler. -/
theorem empty_extraction_is_no_output :
    (∀ (p : String) (env : LmEnv),
        env.waitInputErr = none → env.fillErr = none →
        (probe env.clickOk lmarenaButtonSelectors).isSome = true →
        env.waitOutputErr = none →
        lmarenaCollect env.imgs env.vids = [] →
        handle_lmarena p env = ⟨.no_output, some p, some "lmarena.ai", some [], none⟩) ∧
    (∀ (p : String) (env : GenEnv),
        (probe env.inputOk genericInputSelectors).isSome = true →
        (probe env.clickOk genericButtonSelectors).isSome = true →
        genCollect env.content = [] →
        handle_generic_site p env = ⟨.no_output, some p, some "generic", some [], none⟩) := by
  constructor
  · intro p env h1 h2 h3 h4 h5
    obtain ⟨c, hc⟩ := Option.isSome_iff_exists.mp h3
    simp [handle_lmarena, h1, h2, hc, h4, h5]
  · intro p env h1 h2 h5
    obtain ⟨c, hc⟩ := Option.isSome_iff_exists.mp h1
    obtain ⟨c2, hc2⟩ := Option.isSome_iff_exists.mp h2
    simp [handle_generic_site, hc, hc2, h5]

/-- Witness for C6: concrete runs whose DOM holds no qualifying media
return `no_output` with an empty output list. -/
theorem empty_extraction_is_no_output_witness :
    handle_lmarena "p" ⟨none, none, fun _ => true, none, [some "https://cdn.test/logo.png"], []⟩ =
      ⟨.no_output, some "p", some "lmarena.ai", some [], none⟩ ∧
    handle_generic_site "p" ⟨fun _ => true, fun _ => true, [⟨"img", none⟩]⟩ =
      ⟨.no_output, some "p", some "generic", some [], none⟩ :=
  ⟨empty_extraction_is_no_output.1 "p"
      ⟨none, none, fun _ => true, none, [some "https://cdn.test/logo.png"], []⟩
      rfl rfl (by decide) rfl (by decide),
   empty_extraction_is_no_output.2 "p" ⟨fun _ => true, fun _ => true, [⟨"img", none⟩]⟩
      (by decide) (by decide) (by decide)⟩

/-- Counterexample for C8: when no submit button can be clicked, the
lmarena handler's cause string is `"Could not find generate button"`, not
the claimed `"no submit button found"`; and the generic handler's
input-failure cause is `"No input field found"` (capital N), not the
claimed exact string `"no input field found"`. -/
theorem failure_cause_strings_differ :
    handle_lmarena "p" ⟨none, none, fun _ => false, none, [], []⟩ =
      ⟨.failed, none, none, none, some "Could not find generate button"⟩ ∧
    "Could not find generate button" ≠ "no submit button found" ∧
    (handle_generic_site "p" ⟨fun _ => false, fun _ => false, []⟩).error =
      some "No input field found" ∧
    "No input field found" ≠ "no input field found" :=
  ⟨by decide, by decide, by decide, by decide⟩

/-- C8 (amended): a state transition that cannot complete terminates the
strategy early with a `failed` outcome and a cause string, and no later
state is attempted (the result does not depend on the later-state
environment): the generic handler reports `"No input field found"` when
no input selector resolves and `"No submit button found"` when no button
click succeeds; the lmarena handler reports
`"Could not find generate button"` when no button click succeeds; and
when the output-evidence wait raises, the handler reports `failed` with
that exception's own description (not a fixed `"no output detected"`
string). -/
theorem early_failure_causes :
    (∀ (p : String) (iOk cOk : String → Bool) (content : List Elem),
        probe iOk genericInputSelectors = none →
        handle_generic_site p ⟨iOk, cOk, content⟩ =
          ⟨.failed, none, none, none, some "No input field found"⟩) ∧
    (∀ (p : String) (iOk cOk : String → Bool) (content : List Elem),
        (probe iOk genericInputSelectors).isSome = true →
        probe cOk genericButtonSelectors = none →
        handle_generic_site p ⟨iOk, cOk, content⟩ =
          ⟨.failed, none, none, none, some "No submit button found"⟩) ∧
    (∀ (p : String) (env : LmEnv),
        env.waitInputErr = none → env.fillErr = none →
        probe env.clickOk lmarenaButtonSelectors = none →
        handle_lmarena p env =
          ⟨.failed, none, none, none, some "Could not find generate button"⟩) ∧
    (∀ (p : String) (env : LmEnv) (e : String),
        env.waitInputErr = none → env.fillErr = none →
        (probe env.clickOk lmarenaButtonSelectors).isSome = true →
        env.waitOutputErr = some e →
        handle_lmarena p env = ⟨.failed, none, none, none, some e⟩) := by
  refine ⟨?_, ?_, ?_, ?_⟩
  · intro p iOk cOk content h1
    simp [handle_generic_site, h1]
  · intro p iOk cOk content h1 h2
    obtain ⟨c, hc⟩ := Option.isSome_iff_exists.mp h1
    simp [handle_generic_site, hc, h2]
  · intro p env h1 h2 h3
    simp [handle_lmarena, h1, h2, h3]
  · intro p env e h1 h2 h3 h4
    obtain ⟨c, hc⟩ := Option.isSome_iff_exists.mp h3
    simp [handle_lmarena, h1, h2, hc, h4]

/-- Witness for C8 (amended): concrete early failures produce the exact
cause strings, and a concrete output-wait exception message is passed
through. -/
theorem early_failure_causes_witness :
    handle_generic_site "p" ⟨fun _ => true, fun _ => false,
        [⟨"img", some "https://cdn.test/a.png"⟩]⟩ =
      ⟨.failed, none, none, none, some "No submit button found"⟩ ∧
    handle_lmarena "p" ⟨none, none, fun _ => true,
        some "Timeout 30000ms exceeded", [], []⟩ =
      ⟨.failed, none, none, none, some "Timeout 30000ms exceeded"⟩ :=
  ⟨early_failure_causes.2.1 "p" (fun _ => true) (fun _ => false)
      [⟨"img", some "https://cdn.test/a.png"⟩] (by decide) (by decide),
   early_failure_causes.2.2.2 "p"
      ⟨none, none, fun _ => true, some "Timeout 30000ms exceeded", [], []⟩
      "Timeout 30000ms exceeded" rfl rfl (by decide) rfl⟩

/-- C9: in the lmarena strategy, every image entry of the output has a
non-empty locator containing one of `blob:`, `data:`, `generated`, while
a video entry needs only a non-empty `src` — any processed video element
with a non-empty `src` is emitted, with no substring filtering. -/
theorem lmarena_media_filters :
    (∀ (imgs vids : List (Option String)) (r : MediaRef),
        r ∈ lmarenaCollect imgs vids → r.type = "image" →
        r.url ≠ "" ∧ (strContains r.url "blob:" || strContains r.url "data:"
          || strContains r.url "generated") = true) ∧
    (∀ (imgs vids : List (Option String)) (s : String),
        some s ∈ takeLast 2 vids → s ≠ "" →
        (⟨"video", s⟩ : MediaRef) ∈ lmarenaCollect imgs vids) := by
  constructor
  · intro imgs vids r hr htype
    rcases List.mem_append.mp hr with hmem | hmem
    · obtain ⟨src, _, hkeep⟩ := List.mem_filterMap.mp hmem
      cases src with
      | none => simp [lmImgKeep] at hkeep
      | some s =>
          simp only [lmImgKeep] at hkeep
          by_cases hcond : (!(s == "") && (strContains s "blob:" || strContains s "data:"
              || strContains s "generated")) = true
          · rw [if_pos hcond] at hkeep
            simp only [Bool.and_eq_true] at hcond
            obtain ⟨hb, hsub⟩ := hcond
            cases hkeep
            constructor
            · simpa using hb
            · exact hsub
          · rw [if_neg hcond] at hkeep
            exact absurd hkeep (by simp)
    · obtain ⟨src, _, hkeep⟩ := List.mem_filterMap.mp hmem
      cases src with
      | none => simp [lmVidKeep] at hkeep
      | some s =>
          simp only [lmVidKeep] at hkeep
          by_cases hb : (!(s == "")) = true
          · rw [if_pos hb] at hkeep
            cases hkeep
            simp at htype
          · rw [if_neg hb] at hkeep
            exact absurd hkeep (by simp)
  · intro imgs vids s hmem hs
    refine List.mem_append_right _ (List.mem_filterMap.mpr ⟨some s, hmem, ?_⟩)
    simp [lmVidKeep, hs]

/-- Witness for C9: a plain `.mp4` URL with none of the image substrings
is emitted as a video, and the filter facts hold for a concrete emitted
image. -/
theorem lmarena_media_filters_witness :
    (⟨"video", "https://cdn.test/v.mp4"⟩ : MediaRef) ∈
      lmarenaCollect [] [some "https://cdn.test/v.mp4"] ∧
    ("blob:abc" ≠ "" ∧ (strContains "blob:abc" "blob:" || strContains "blob:abc" "data:"
        || strContains "blob:abc" "generated") = true) :=
  ⟨lmarena_media_filters.2 [] [some "https://cdn.test/v.mp4"] "https://cdn.test/v.mp4"
      (by decide) (by decide),
   lmarena_media_filters.1 [some "blob:abc"] [] ⟨"image", "blob:abc"⟩
      (by decide) (by decide)⟩

/-- A full-run environment whose navigation (`page.goto`) raises; the
handlers are never reached. -/
def gotoFailEnv : FullEnv :=
  { startErr := none, launchErr := none, newPageErr := none, viewportErr := none,
    headersErr := none, gotoErr := some "net::ERR_NAME_NOT_RESOLVED", loadErr := none,
    closeErr := none,
    lm := ⟨none, none, fun _ => false, none, [], []⟩,
    hf := ⟨none, none, none, none, []⟩,
    rep := ⟨none, none, none, none, []⟩,
    gen := ⟨fun _ => false, fun _ => false, []⟩ }

/-- Counterexample for C10: the site field is not a per-strategy constant
on every returned outcome.  On the session's error path the returned dict
keeps `site = site_url` — the caller's full destination address — even
though the destination matches no known pattern (the claim says
`"generic"`); and a handler's `failed` dict carries no site field at
all. -/
theorem site_field_not_constant :
    selectStrategy "https://example.org/generate" = .generic ∧
    (run_web_generator "p" "https://example.org/generate" gotoFailEnv).1.site =
      some "https://example.org/generate" ∧
    (some "https://example.org/generate" : Option String) ≠ some "generic" ∧
    (handle_lmarena "p" ⟨some "Timeout 30000ms exceeded", none, fun _ => false,
        none, [], []⟩).site = none :=
  ⟨by decide, by decide, by decide, by decide⟩

/-- C10 (amended): the site field is the per-strategy hardcoded constant
(`"lmarena.ai"`, `"huggingface.co"`, `"replicate.com"`, `"generic"`) on
every non-`failed` outcome a handler returns, regardless of the caller's
destination; on a handler's `failed` outcome the site field is absent; on
the session's `error` path the site field is the caller's full destination
address when the failure occurred before the dispatched handler returned,
and is whatever the handler's dict held (its constant, or absent) when the
teardown raised after the handler returned. -/
theorem site_field_per_path :
    (∀ (p : String) (env : LmEnv),
        ((handle_lmarena p env).status = .failed → (handle_lmarena p env).site = none) ∧
        ((handle_lmarena p env).status ≠ .failed →
          (handle_lmarena p env).site = some "lmarena.ai")) ∧
    (∀ (p : String) (env : HfEnv),
        ((handle_huggingface p env).status = .failed →
          (handle_huggingface p env).site = none) ∧
        ((handle_huggingface p env).status ≠ .failed →
          (handle_huggingface p env).site = some "huggingface.co")) ∧
    (∀ (p : String) (env : RepEnv),
        ((handle_replicate p env).status = .failed →
          (handle_replicate p env).site = none) ∧
        ((handle_replicate p env).status ≠ .failed →
          (handle_replicate p env).site = some "replicate.com")) ∧
    (∀ (p : String) (env : GenEnv),
        ((handle_generic_site p env).status = .failed →
          (handle_generic_site p env).site = none) ∧
        ((handle_generic_site p env).status ≠ .failed →
          (handle_generic_site p env).site = some "generic")) ∧
    (∀ (p u : String) (fenv : FullEnv) (e : String),
        fenv.toSessionEnv.startErr = some e ∨
          (fenv.toSessionEnv.startErr = none ∧ fenv.toSessionEnv.launchErr = some e) ∨
          (fenv.toSessionEnv.startErr = none ∧ fenv.toSessionEnv.launchErr = none ∧
            fenv.toSessionEnv.pageFault = some e) →
        (run_web_generator p u fenv).1.site = some u) ∧
    (∀ (p u : String) (fenv : FullEnv) (e : String),
        fenv.toSessionEnv.startErr = none → fenv.toSessionEnv.launchErr = none →
        fenv.toSessionEnv.pageFault = none → fenv.toSessionEnv.closeErr = some e →
        (run_web_generator p u fenv).1.site = (dispatchRun p u fenv).site) := by
  refine ⟨?_, ?_, ?_, ?_, ?_, ?_⟩
  · intro p env
    unfold handle_lmarena
    cases h1 : env.waitInputErr with
    | some e => simp
    | none =>
    cases h2 : env.fillErr with
    | some e => simp
    | none =>
    cases h3 : probe env.clickOk lmarenaButtonSelectors with
    | none => simp
    | some c =>
    cases h4 : env.waitOutputErr with
    | some e => simp
    | none =>
      by_cases h5 : (lmarenaCollect env.imgs env.vids).isEmpty <;> simp [h5]
  · intro p env
    unfold handle_huggingface
    cases h1 : env.waitErr with
    | some e => simp
    | none =>
    cases h2 : env.fillErr with
    | some e => simp
    | none =>
    cases h3 : env.clickErr with
    | some e => simp
    | none =>
    cases h4 : env.waitOutErr with
    | some e => simp
    | none =>
      by_cases h5 : (hfCollect env.content).isEmpty <;> simp [h5]
  · intro p env
    unfold handle_replicate
    cases h1 : env.waitErr with
    | some e => simp
    | none =>
    cases h2 : env.fillErr with
    | some e => simp
    | none =>
    cases h3 : env.clickErr with
    | some e => simp
    | none =>
    cases h4 : env.waitOutErr with
    | some e => simp
    | none =>
      by_cases h5 : (repCollect env.content).isEmpty <;> simp [h5]
  · intro p env
    unfold handle_generic_site
    cases h1 : probe env.inputOk genericInputSelectors with
    | none => simp
    | some c =>
    cases h2 : probe env.clickOk genericButtonSelectors with
    | none => simp
    | some c2 =>
      by_cases h5 : (genCollect env.content).isEmpty <;> simp [h5]
  · intro p u fenv e hd
    rcases hd with h1 | ⟨h1, h2⟩ | ⟨h1, h2, h3⟩
    · cases h2 : fenv.toSessionEnv.launchErr <;>
        cases h3 : fenv.toSessionEnv.pageFault <;>
        cases h4 : fenv.toSessionEnv.closeErr <;>
        simp [run_web_generator, runSessionWith, h1, h2, h3, h4,
          toErrorResult, initResult]
    · cases h3 : fenv.toSessionEnv.pageFault <;>
        cases h4 : fenv.toSessionEnv.closeErr <;>
        simp [run_web_generator, runSessionWith, h1, h2, h3, h4,
          toErrorResult, initResult]
    · cases h4 : fenv.toSessionEnv.closeErr <;>
        simp [run_web_generator, runSessionWith, h1, h2, h3, h4,
          toErrorResult, initResult]
  · intro p u fenv e h1 h2 h3 h4
    simp [run_web_generator, runSessionWith, h1, h2, h3, h4, toErrorResult]

/-- Witness for C10 (amended): a successful lmarena run reports site
`lmarena.ai`, a failed one omits the field, a session navigation failure
reports the caller's address, and a teardown failure after a successful
lmarena run keeps the handler's site constant. -/
theorem site_field_per_path_witness :
    (handle_lmarena "p" ⟨none, none, fun _ => true, none, [some "blob:abc"], []⟩).site =
      some "lmarena.ai" ∧
    (handle_lmarena "p" ⟨some "boom", none, fun _ => false, none, [], []⟩).site = none ∧
    (run_web_generator "p" "https://example.org/generate" gotoFailEnv).1.site =
      some "https://example.org/generate" ∧
    (run_web_generator "p" "https://lmarena.ai" teardownFailEnv).1.site =
      (dispatchRun "p" "https://lmarena.ai" teardownFailEnv).site :=
  ⟨(site_field_per_path.1 "p" ⟨none, none, fun _ => true, none, [some "blob:abc"], []⟩).2
      (by decide),
   (site_field_per_path.1 "p" ⟨some "boom", none, fun _ => false, none, [], []⟩).1
      (by decide),
   site_field_per_path.2.2.2.2.1 "p" "https://example.org/generate" gotoFailEnv
      "net::ERR_NAME_NOT_RESOLVED" (Or.inr (Or.inr ⟨rfl, rfl, rfl⟩)),
   site_field_per_path.2.2.2.2.2 "p" "https://lmarena.ai" teardownFailEnv
      "Target page, context or browser has been closed" rfl rfl rfl rfl⟩

end T2V
